import Mathlib

/-!
Shallow embedding of `src/pinecone_setup.py` (repository nagesh7588/vector_db).

The script orchestrates a remote vector database: it reads an API key from
the environment, builds an embedding model and a remote-store client,
ensures a remote index exists with the configured dimension (destructively
recreating it on mismatch), upserts four fixed sample documents, and runs
two canned nearest-neighbour queries.

Modelling choices:
* Every externally visible action (environment read, client construction,
  model load, control-plane call, embedding-model call, upsert, data-plane
  query, `print`) is recorded as an `Event`; each embedded function returns
  its event trace together with its result.
* `sys.exit(1)` is modelled by the `Outcome.exited 1` result; a normal
  return is `Outcome.ok`.
* The remote control-plane state is a map from index names to descriptors
  (`RemoteState`); `list_indexes().names()` is observed only through
  membership of the configured name, exactly as the source observes it.
* Remote calls that can raise are driven by oracles: `RemoteFailures`
  carries an optional error message per control-plane/upsert operation,
  the embedding model is an `Encoder` returning `Except`, and the
  data-plane query is a `Store` returning `Except`.
* Python floats are abstracted: embedding coordinates and match scores are
  integers (no claim here depends on real-number arithmetic), and the
  source's four-decimal score formatting is rendered as plain `toString`.
* Python metadata dictionaries are association lists; `metadata['k']` is
  `List.lookup`, whose `none` case corresponds to a raised `KeyError` whose
  Python string form is `'k'`.
-/

namespace VectorDb

/-- Cloud placement record, from `ServerlessSpec(cloud="aws", region="us-east-1")`. -/
structure ServerlessSpec where
  cloud : String
  region : String
deriving DecidableEq

/-- The `CONFIG` dictionary of the source. -/
structure Config where
  index_name : String
  dimension : Nat
  metric : String
  spec : ServerlessSpec
  embedding_model : String

/-- `CONFIG` from `pinecone_setup.py` lines 11-17. -/
def CONFIG : Config :=
  { index_name := "starter-index"
    dimension := 384
    metric := "cosine"
    spec := { cloud := "aws", region := "us-east-1" }
    embedding_model := "all-MiniLM-L6-v2" }

/-- An embedding vector (`model.encode(text).tolist()`), coordinates abstracted to `Int`. -/
abbrev Embedding := List Int

/-- A sample document: `{id, text, category}`. -/
structure Document where
  id : String
  text : String
  category : String
deriving DecidableEq

/-- A vector record as assembled for `index.upsert`:
`(doc["id"], model.encode(doc["text"]).tolist(), {"text": ..., "category": ...})`.
The metadata dictionary is an association list. -/
structure VectorRecord where
  id : String
  vector : Embedding
  metadata : List (String × String)
deriving DecidableEq

/-- One match of a data-plane query response (`results.matches`): id, score
(abstracted to `Int`) and the stored metadata dictionary. -/
structure QueryMatch where
  id : String
  score : Int
  metadata : List (String × String)
deriving DecidableEq

/-- Descriptor of a remote index (`pc.describe_index`): its dimension and metric. -/
structure IndexDesc where
  dimension : Nat
  metric : String
deriving DecidableEq

/-- The handle `pc.Index(name)` returns: bound to an index name. -/
structure IndexHandle where
  name : String
deriving DecidableEq

/-- Every externally visible action of the script. -/
inductive Event where
  | getenv (name : String)
  | constructClient
  | loadModel (name : String)
  | listIndexes
  | describeIndex (name : String)
  | deleteIndex (name : String)
  | createIndex (name : String) (dimension : Nat) (metric : String) (spec : ServerlessSpec)
  | encode (text : String)
  | upsert (vectors : List VectorRecord)
  | storeQuery (vector : Embedding) (top_k : Nat) (include_metadata : Bool)
  | print (line : String)
deriving DecidableEq

/-- Result of running a piece of the script: a normal return, or the process
exit `sys.exit(code)` performed inside an exception handler. -/
inductive Outcome (α : Type) where
  | ok (value : α)
  | exited (code : Nat)
deriving DecidableEq

/-- The remote control-plane state: which indexes exist, by name. -/
abbrev RemoteState := String → Option IndexDesc

/-- Failure oracle for the remote calls that the source wraps in try/except:
`some msg` means the corresponding call raises an exception rendered as `msg`. -/
structure RemoteFailures where
  list_indexes : Option String
  describe_index : Option String
  create_index : Option String
  delete_index : Option String
  upsert : Option String
deriving DecidableEq

/-- The oracle under which every remote call succeeds. -/
def noFailures : RemoteFailures := ⟨none, none, none, none, none⟩

/-- The embedding model: `model.encode`, which may raise. -/
abbrev Encoder := String → Except String Embedding

/-- The data-plane query endpoint `index.query`, which may raise. -/
abbrev Store := Embedding → Nat → Except String (List QueryMatch)

/-- Python truthiness test `not api_key` for an optional string: true for
`None` and for the empty string. -/
def pyFalsy : Option String → Bool
  | none => true
  | some s => s.isEmpty

/-- Process environment as far as the script reads it. -/
structure Env where
  pinecone_api_key : Option String

/-- Lines 19-33, `initialize_components`: validate the API key, then construct
the Pinecone client and the sentence-transformer model; any exception prints
`Initialization failed: ...` and exits with status 1. -/
def initialize_components (env : Env) : List Event × Outcome Unit :=
  if pyFalsy env.pinecone_api_key then
    ([Event.getenv "PINECONE_API_KEY",
      Event.print "Initialization failed: PINECONE_API_KEY not found in .env file"],
     Outcome.exited 1)
  else
    ([Event.getenv "PINECONE_API_KEY", Event.constructClient,
      Event.loadModel CONFIG.embedding_model],
     Outcome.ok ())

/-- `pc.delete_index n` on the control-plane state. -/
def delete_from (s : RemoteState) (n : String) : RemoteState :=
  fun m => if m = n then none else s m

/-- `pc.create_index(name, dimension, metric, spec)` on the control-plane state. -/
def create_in (s : RemoteState) (n : String) (d : Nat) (metric : String) : RemoteState :=
  fun m => if m = n then some ⟨d, metric⟩ else s m

/-- Lines 46-58 of `setup_index`: the second `list_indexes` membership check,
the create-if-absent step, and the `pc.Index` handle; `evs` are the events of
the first half. Any exception prints `Index setup failed: ...` and exits 1. -/
def setup_index_finish (f : RemoteFailures) (s : RemoteState) (evs : List Event) :
    List Event × RemoteState × Outcome IndexHandle :=
  match f.list_indexes with
  | some e =>
      (evs ++ [Event.listIndexes, Event.print ("Index setup failed: " ++ e)],
       s, Outcome.exited 1)
  | none =>
    match s CONFIG.index_name with
    | none =>
      match f.create_index with
      | some e =>
          (evs ++ [Event.listIndexes,
                   Event.createIndex CONFIG.index_name CONFIG.dimension CONFIG.metric CONFIG.spec,
                   Event.print ("Index setup failed: " ++ e)],
           s, Outcome.exited 1)
      | none =>
          (evs ++ [Event.listIndexes,
                   Event.createIndex CONFIG.index_name CONFIG.dimension CONFIG.metric CONFIG.spec,
                   Event.print ("Created index: " ++ CONFIG.index_name ++
                     " with dimension " ++ toString CONFIG.dimension)],
           create_in s CONFIG.index_name CONFIG.dimension CONFIG.metric,
           Outcome.ok ⟨CONFIG.index_name⟩)
    | some _ =>
        (evs ++ [Event.listIndexes,
                 Event.print ("Using existing index: " ++ CONFIG.index_name)],
         s, Outcome.ok ⟨CONFIG.index_name⟩)

/-- Lines 35-62, `setup_index`: if the configured name exists, describe it and
delete it when its dimension differs from the configured one; then create the
index when the name is (still) absent; return a handle to the configured name.
Any exception in the body prints `Index setup failed: ...` and exits 1. -/
def setup_index (f : RemoteFailures) (s : RemoteState) :
    List Event × RemoteState × Outcome IndexHandle :=
  match f.list_indexes with
  | some e =>
      ([Event.listIndexes, Event.print ("Index setup failed: " ++ e)], s, Outcome.exited 1)
  | none =>
    match s CONFIG.index_name with
    | none => setup_index_finish f s [Event.listIndexes]
    | some info =>
      match f.describe_index with
      | some e =>
          ([Event.listIndexes, Event.describeIndex CONFIG.index_name,
            Event.print ("Index setup failed: " ++ e)], s, Outcome.exited 1)
      | none =>
        if info.dimension ≠ CONFIG.dimension then
          match f.delete_index with
          | some e =>
              ([Event.listIndexes, Event.describeIndex CONFIG.index_name,
                Event.print ("Existing index has wrong dimension (" ++
                  toString info.dimension ++ "), deleting..."),
                Event.deleteIndex CONFIG.index_name,
                Event.print ("Index setup failed: " ++ e)], s, Outcome.exited 1)
          | none =>
              setup_index_finish f (delete_from s CONFIG.index_name)
                [Event.listIndexes, Event.describeIndex CONFIG.index_name,
                 Event.print ("Existing index has wrong dimension (" ++
                   toString info.dimension ++ "), deleting..."),
                 Event.deleteIndex CONFIG.index_name,
                 Event.print "Deleted old index with incorrect dimension"]
        else
          setup_index_finish f s [Event.listIndexes, Event.describeIndex CONFIG.index_name]

/-- The four fixed sample documents of `upsert_documents` (lines 66-87). -/
def documents : List Document :=
  [⟨"doc1", "Einstein's theory of relativity revolutionized modern physics", "science"⟩,
   ⟨"doc2", "Ancient Roman aqueducts were engineering marvels", "history"⟩,
   ⟨"doc3", "Quantum mechanics describes subatomic particles", "physics"⟩,
   ⟨"doc4", "The Colosseum was an ancient Roman amphitheater", "history"⟩]

/-- The vector record assembled for one document. -/
def mkRecord (d : Document) (v : Embedding) : VectorRecord :=
  ⟨d.id, v, [("text", d.text), ("category", d.category)]⟩

/-- The list comprehension of lines 90-96: encode each document in order and
assemble its record; an exception raised by `model.encode` aborts the
comprehension (the events are the encode calls made up to that point). -/
def build_vectors (enc : Encoder) : List Document → List Event × Except String (List VectorRecord)
  | [] => ([], Except.ok [])
  | d :: ds =>
    match enc d.text with
    | Except.error e => ([Event.encode d.text], Except.error e)
    | Except.ok v =>
      match build_vectors enc ds with
      | (evs, Except.error e) => (Event.encode d.text :: evs, Except.error e)
      | (evs, Except.ok recs) => (Event.encode d.text :: evs, Except.ok (mkRecord d v :: recs))

/-- The dynamically typed return value of the Python `upsert_documents`. The
spec describes a numeric count, the source's `return vectors` a record list;
this type can represent either so the two can be compared. -/
inductive UpsertReturn where
  | count (n : Nat)
  | records (vectors : List VectorRecord)
deriving DecidableEq

/-- The body of `upsert_documents` (lines 89-104) over an arbitrary document
list: build all records, submit them in one `index.upsert` call, print
`Inserted N documents`, and return `vectors`; any exception prints
`Document upload failed: ...` and exits 1. -/
def upsert_documents_on (f : RemoteFailures) (enc : Encoder) (docs : List Document) :
    List Event × Outcome UpsertReturn :=
  match build_vectors enc docs with
  | (evs, Except.error e) =>
      (evs ++ [Event.print ("Document upload failed: " ++ e)], Outcome.exited 1)
  | (evs, Except.ok vectors) =>
    match f.upsert with
    | some e =>
        (evs ++ [Event.upsert vectors, Event.print ("Document upload failed: " ++ e)],
         Outcome.exited 1)
    | none =>
        (evs ++ [Event.upsert vectors,
                 Event.print ("Inserted " ++ toString docs.length ++ " documents")],
         Outcome.ok (UpsertReturn.records vectors))

/-- Lines 64-104, `upsert_documents`: the body above applied to the fixed
sample documents. -/
def upsert_documents (f : RemoteFailures) (enc : Encoder) : List Event × Outcome UpsertReturn :=
  upsert_documents_on f enc documents

/-- The display loop of lines 119-124: for each match (numbered from 1) print
its id and score, then `match.metadata['category']` and
`match.metadata['text']`. A missing key raises `KeyError`, rendered as the
quoted key name; the loop stops there and the error is returned. -/
def format_matches : Nat → List QueryMatch → List Event × Option String
  | _, [] => ([], none)
  | i, m :: ms =>
    let base := [Event.print ("\nMatch " ++ toString i ++ ":"),
                 Event.print ("ID: " ++ m.id),
                 Event.print ("Score: " ++ toString m.score)]
    match m.metadata.lookup "category" with
    | none => (base, some "'category'")
    | some cat =>
      match m.metadata.lookup "text" with
      | none => (base ++ [Event.print ("Category: " ++ cat)], some "'text'")
      | some txt =>
        match format_matches (i + 1) ms with
        | (evs, err) =>
          (base ++ [Event.print ("Category: " ++ cat), Event.print ("Content: " ++ txt)] ++ evs,
           err)

/-- Lines 106-127, `query_index`: embed the query, call `index.query` with
`include_metadata=True`, print the header, then either `No matches found` or
the formatted matches. Every exception is caught and printed as
`Query failed: ...`; the function never exits the process. -/
def query_index (enc : Encoder) (store : Store) (query_text : String) (top_k : Nat) :
    List Event × Outcome Unit :=
  match enc query_text with
  | Except.error e =>
      ([Event.encode query_text, Event.print ("Query failed: " ++ e)], Outcome.ok ())
  | Except.ok v =>
    match store v top_k with
    | Except.error e =>
        ([Event.encode query_text, Event.storeQuery v top_k true,
          Event.print ("Query failed: " ++ e)], Outcome.ok ())
    | Except.ok found =>
      let header := Event.print ("\nTop " ++ toString top_k ++ " result(s) for '" ++
        query_text ++ "':")
      if found.isEmpty then
        ([Event.encode query_text, Event.storeQuery v top_k true, header,
          Event.print "No matches found"], Outcome.ok ())
      else
        match format_matches 1 found with
        | (evs, none) =>
            (Event.encode query_text :: Event.storeQuery v top_k true :: header :: evs,
             Outcome.ok ())
        | (evs, some e) =>
            (Event.encode query_text :: Event.storeQuery v top_k true :: header :: evs ++
               [Event.print ("Query failed: " ++ e)],
             Outcome.ok ())

/-- Lines 129-142, `main`: initialize, set up the index, upsert the sample
documents, then run the two canned queries — `"scientific theories"` with the
default `top_k` of 1 and `"ancient engineering"` with `top_k=2`. The script
reads no command-line arguments, so `_argv` is unused. An exit inside a step
ends the process with that status; otherwise the process ends normally. -/
def main_run (env : Env) (f : RemoteFailures) (enc : Encoder) (store : Store)
    (s0 : RemoteState) (_argv : List String) : List Event × Outcome Unit :=
  match initialize_components env with
  | (evs0, Outcome.exited c) => (evs0, Outcome.exited c)
  | (evs0, Outcome.ok ()) =>
    match setup_index f s0 with
    | (evs1, _, Outcome.exited c) => (evs0 ++ evs1, Outcome.exited c)
    | (evs1, _, Outcome.ok _) =>
      match upsert_documents f enc with
      | (evs2, Outcome.exited c) => (evs0 ++ evs1 ++ evs2, Outcome.exited c)
      | (evs2, Outcome.ok _) =>
        match query_index enc store "scientific theories" 1 with
        | (evs3, Outcome.exited c) => (evs0 ++ evs1 ++ evs2 ++ evs3, Outcome.exited c)
        | (evs3, Outcome.ok ()) =>
          match query_index enc store "ancient engineering" 2 with
          | (evs4, out4) => (evs0 ++ evs1 ++ evs2 ++ evs3 ++ evs4, out4)

/-- Whether an event touches the network (client construction included). -/
def isNetworkEvent : Event → Bool
  | Event.constructClient => true
  | Event.listIndexes => true
  | Event.describeIndex _ => true
  | Event.deleteIndex _ => true
  | Event.createIndex _ _ _ _ => true
  | Event.upsert _ => true
  | Event.storeQuery _ _ _ => true
  | _ => false

/-- Whether an event is an embedding-model call. -/
def isEncodeEvent : Event → Bool
  | Event.encode _ => true
  | _ => false

/-- Whether an event is an upsert call. -/
def isUpsertEvent : Event → Bool
  | Event.upsert _ => true
  | _ => false

/-- A match whose stored metadata carries both keys the display loop reads. -/
def wfMatch (m : QueryMatch) : Prop :=
  (m.metadata.lookup "category").isSome = true ∧ (m.metadata.lookup "text").isSome = true

/-! Concrete fixtures used to instantiate the theorems below. -/

/-- An embedding model that always succeeds (with the empty vector). -/
def encOk : Encoder := fun _ => Except.ok []

/-- An embedding model that raises exactly on the third sample document's text. -/
def encFail : Encoder := fun t =>
  if t = "Quantum mechanics describes subatomic particles" then Except.error "model crash"
  else Except.ok []

/-- A data-plane endpoint whose query always raises. -/
def storeFail : Store := fun _ _ => Except.error "connection error"

/-- A data-plane endpoint that always returns an empty match list. -/
def storeEmpty : Store := fun _ _ => Except.ok []

/-- A data-plane endpoint returning one match whose metadata has no `category` key. -/
def storeNoCategory : Store := fun _ _ => Except.ok [⟨"doc9", 5, [("text", "hello")]⟩]

/-- A data-plane endpoint returning one match with complete metadata. -/
def storeGood : Store := fun _ _ =>
  Except.ok [⟨"doc1", 9, [("text", "t1"), ("category", "science")]⟩]

/-- An environment holding an API key. -/
def envOk : Env := ⟨some "key"⟩

/-- An environment with no API key. -/
def envNone : Env := ⟨none⟩

/-- A remote state with no index at all. -/
def emptyState : RemoteState := fun _ => none

/-- A remote state where every name (the configured one included) has the
configured dimension. -/
def okState : RemoteState := fun _ => some ⟨384, "cosine"⟩

/-- A remote state where every name has a wrong dimension. -/
def wrongDimState : RemoteState := fun _ => some ⟨128, "cosine"⟩

/-- Failure oracle: `list_indexes` raises. -/
def failListCfg : RemoteFailures := ⟨some "boom", none, none, none, none⟩

/-- Failure oracle: `create_index` raises. -/
def failCreateCfg : RemoteFailures := ⟨none, none, some "boom", none, none⟩

/-- Failure oracle: `delete_index` raises. -/
def failDeleteCfg : RemoteFailures := ⟨none, none, none, some "boom", none⟩

/-- Failure oracle: `index.upsert` raises. -/
def failUpsertCfg : RemoteFailures := ⟨none, none, none, none, some "boom"⟩

/-! Helper lemmas about the embedded operations. -/

/-- When the encoder succeeds (computing `g`) on every document, the list
comprehension encodes each document in order and assembles each record. -/
theorem build_vectors_ok (enc : Encoder) (g : String → Embedding)
    (docs : List Document) :
    (∀ d ∈ docs, enc d.text = Except.ok (g d.text)) →
    build_vectors enc docs =
      ((docs.map fun d => Event.encode d.text),
       Except.ok (docs.map fun d => mkRecord d (g d.text))) := by
  induction docs with
  | nil => intro _; rfl
  | cons d ds ih =>
    intro h
    have hd : enc d.text = Except.ok (g d.text) := h d (by simp)
    have hds := ih (fun x hx => h x (by simp [hx]))
    simp [build_vectors, hd, hds]

/-- The events of the comprehension are encoding calls only. -/
theorem build_vectors_events_shape (enc : Encoder) (docs : List Document) :
    ∃ ts : List String, (build_vectors enc docs).1 = ts.map Event.encode := by
  induction docs with
  | nil => exact ⟨[], rfl⟩
  | cons d ds ih =>
    rcases he : enc d.text with e | v
    · exact ⟨[d.text], by simp [build_vectors, he]⟩
    · obtain ⟨ts, hts⟩ := ih
      obtain ⟨evs, r, hb⟩ : ∃ a b, build_vectors enc ds = (a, b) := ⟨_, _, rfl⟩
      rw [hb] at hts
      simp only at hts
      refine ⟨d.text :: ts, ?_⟩
      rcases r with e | recs <;> simp [build_vectors, he, hb, hts]

/-- If some document's encoding raises, the comprehension raises. -/
theorem build_vectors_error_of_mem (enc : Encoder) (docs : List Document) :
    (∃ d ∈ docs, ∃ e, enc d.text = Except.error e) →
    ∃ e', (build_vectors enc docs).2 = Except.error e' := by
  induction docs with
  | nil => rintro ⟨d, hd, _⟩; cases hd
  | cons d0 ds ih =>
    rintro ⟨d, hd, e, he⟩
    rcases List.mem_cons.mp hd with rfl | hmem
    · rcases h0 : enc d.text with e0 | v0
      · exact ⟨e0, by simp [build_vectors, h0]⟩
      · rw [he] at h0; cases h0
    · rcases h0 : enc d0.text with e0 | v0
      · exact ⟨e0, by simp [build_vectors, h0]⟩
      · obtain ⟨e', he'⟩ := ih ⟨d, hmem, e, he⟩
        obtain ⟨evs, r, hb⟩ : ∃ a b, build_vectors enc ds = (a, b) := ⟨_, _, rfl⟩
        rw [hb] at he'
        simp only at he'
        subst he'
        exact ⟨e', by simp [build_vectors, h0, hb]⟩

/-- On a fully successful ingestion, the trace and return value in one equation. -/
theorem upsert_on_ok (f : RemoteFailures) (enc : Encoder) (g : String → Embedding)
    (docs : List Document) (henc : ∀ d ∈ docs, enc d.text = Except.ok (g d.text))
    (hf : f.upsert = none) :
    upsert_documents_on f enc docs =
      ((docs.map fun d => Event.encode d.text) ++
        [Event.upsert (docs.map fun d => mkRecord d (g d.text)),
         Event.print ("Inserted " ++ toString docs.length ++ " documents")],
       Outcome.ok (UpsertReturn.records (docs.map fun d => mkRecord d (g d.text)))) := by
  have hb := build_vectors_ok enc g docs henc
  simp [upsert_documents_on, hb, hf]

/-- `setup_index` under a correct oracle when the configured name is absent. -/
theorem setup_index_absent (s : RemoteState) (hs : s CONFIG.index_name = none) :
    setup_index noFailures s =
      ([Event.listIndexes, Event.listIndexes,
        Event.createIndex CONFIG.index_name CONFIG.dimension CONFIG.metric CONFIG.spec,
        Event.print ("Created index: " ++ CONFIG.index_name ++ " with dimension " ++
          toString CONFIG.dimension)],
       create_in s CONFIG.index_name CONFIG.dimension CONFIG.metric,
       Outcome.ok ⟨CONFIG.index_name⟩) := by
  simp [setup_index, setup_index_finish, noFailures, hs]

/-- `setup_index` under a correct oracle when the configured name exists with
the configured dimension. -/
theorem setup_index_right_dim (s : RemoteState) (info : IndexDesc)
    (hs : s CONFIG.index_name = some info) (hdim : info.dimension = CONFIG.dimension) :
    setup_index noFailures s =
      ([Event.listIndexes, Event.describeIndex CONFIG.index_name, Event.listIndexes,
        Event.print ("Using existing index: " ++ CONFIG.index_name)],
       s, Outcome.ok ⟨CONFIG.index_name⟩) := by
  simp [setup_index, setup_index_finish, noFailures, hs, hdim]

/-- `setup_index` under a correct oracle when the configured name exists with a
wrong dimension. -/
theorem setup_index_wrong_dim (s : RemoteState) (info : IndexDesc)
    (hs : s CONFIG.index_name = some info) (hdim : info.dimension ≠ CONFIG.dimension) :
    setup_index noFailures s =
      ([Event.listIndexes, Event.describeIndex CONFIG.index_name,
        Event.print ("Existing index has wrong dimension (" ++ toString info.dimension ++
          "), deleting..."),
        Event.deleteIndex CONFIG.index_name,
        Event.print "Deleted old index with incorrect dimension",
        Event.listIndexes,
        Event.createIndex CONFIG.index_name CONFIG.dimension CONFIG.metric CONFIG.spec,
        Event.print ("Created index: " ++ CONFIG.index_name ++ " with dimension " ++
          toString CONFIG.dimension)],
       create_in (delete_from s CONFIG.index_name) CONFIG.index_name CONFIG.dimension
         CONFIG.metric,
       Outcome.ok ⟨CONFIG.index_name⟩) := by
  have hdel : delete_from s CONFIG.index_name CONFIG.index_name = none := by
    simp [delete_from]
  simp [setup_index, setup_index_finish, noFailures, hs, hdim, hdel]

/-- Under a correct oracle `setup_index` returns the handle to the configured name. -/
theorem setup_index_snd (s : RemoteState) :
    (setup_index noFailures s).2.2 = Outcome.ok ⟨CONFIG.index_name⟩ := by
  rcases hs : s CONFIG.index_name with _ | info
  · rw [setup_index_absent s hs]
  · by_cases hdim : info.dimension = CONFIG.dimension
    · rw [setup_index_right_dim s info hs hdim]
    · rw [setup_index_wrong_dim s info hs hdim]

/-- `query_index` never exits the process: every exception is caught. -/
theorem query_index_snd (enc : Encoder) (store : Store) (q : String) (k : Nat) :
    (query_index enc store q k).2 = Outcome.ok () := by
  rcases he : enc q with e | v
  · simp [query_index, he]
  · rcases hs : store v k with e | ms
    · simp [query_index, he, hs]
    · rcases hf : format_matches 1 ms with ⟨evs, err⟩
      cases hm : ms.isEmpty
      · rcases err with _ | e <;> simp [query_index, he, hs, hm, hf]
      · simp [query_index, he, hs, hm]

/-- When the display loop reaches a match with no `category` key, having passed
only matches with complete metadata, it stops with `KeyError: 'category'`. -/
theorem format_matches_missing_category (m : QueryMatch)
    (hm : m.metadata.lookup "category" = none) (rest : List QueryMatch) :
    ∀ good : List QueryMatch, (∀ g ∈ good, wfMatch g) → ∀ i,
      (format_matches i (good ++ m :: rest)).2 = some "'category'" := by
  intro good
  induction good with
  | nil =>
    intro _ i
    simp [format_matches, hm]
  | cons g0 gs ih =>
    intro hwf i
    obtain ⟨c0, hc0⟩ := Option.isSome_iff_exists.mp (hwf g0 (by simp)).1
    obtain ⟨t0, ht0⟩ := Option.isSome_iff_exists.mp (hwf g0 (by simp)).2
    have htl := ih (fun g hg => hwf g (by simp [hg])) (i + 1)
    obtain ⟨evs2, err2, hp⟩ : ∃ a b, format_matches (i + 1) (gs ++ m :: rest) = (a, b) :=
      ⟨_, _, rfl⟩
    rw [hp] at htl
    simp [format_matches, hc0, ht0, hp, htl]

/-- When every match's metadata carries both keys, the display loop reports
every match (id, category and text lines) and raises nothing. -/
theorem format_matches_reports_all (ms : List QueryMatch) :
    (∀ g ∈ ms, wfMatch g) → ∀ i,
    (format_matches i ms).2 = none ∧
    ∀ m ∈ ms, ∀ cat txt, m.metadata.lookup "category" = some cat →
      m.metadata.lookup "text" = some txt →
      Event.print ("ID: " ++ m.id) ∈ (format_matches i ms).1 ∧
      Event.print ("Category: " ++ cat) ∈ (format_matches i ms).1 ∧
      Event.print ("Content: " ++ txt) ∈ (format_matches i ms).1 := by
  induction ms with
  | nil => intro _ i; exact ⟨rfl, by simp⟩
  | cons m0 tl ih =>
    intro hwf i
    obtain ⟨c0, hc0⟩ := Option.isSome_iff_exists.mp (hwf m0 (by simp)).1
    obtain ⟨t0, ht0⟩ := Option.isSome_iff_exists.mp (hwf m0 (by simp)).2
    have htl := ih (fun g hg => hwf g (by simp [hg])) (i + 1)
    obtain ⟨evs2, err2, hp⟩ : ∃ a b, format_matches (i + 1) tl = (a, b) := ⟨_, _, rfl⟩
    rw [hp] at htl
    have hred : format_matches i (m0 :: tl) =
        ([Event.print ("\nMatch " ++ toString i ++ ":"),
          Event.print ("ID: " ++ m0.id),
          Event.print ("Score: " ++ toString m0.score),
          Event.print ("Category: " ++ c0), Event.print ("Content: " ++ t0)] ++ evs2,
         err2) := by
      simp [format_matches, hc0, ht0, hp]
    rw [hred]
    refine ⟨htl.1, ?_⟩
    intro m hmem cat txt hcat htxt
    rcases List.mem_cons.mp hmem with rfl | hmem'
    · rw [hc0] at hcat
      rw [ht0] at htxt
      have hcc : c0 = cat := Option.some.inj hcat
      have htt : t0 = txt := Option.some.inj htxt
      subst hcc htt
      exact ⟨by simp, by simp, by simp⟩
    · have h3 := htl.2 m hmem' cat txt hcat htxt
      exact ⟨by simp [h3.1], by simp [h3.2.1], by simp [h3.2.2]⟩

/-! The claims. -/

/-- C1: for every initial remote state, with every remote call succeeding,
`setup_index` deletes the configured index exactly when it exists with a
dimension different from the configured one, creates an index with the
configured name, dimension and metric exactly when none with that name exists
after the possible deletion (deleting and creating no other name or shape),
and returns a handle bound to an index whose name and dimension equal the
configured ones. -/
theorem setup_index_postcondition (s : RemoteState) :
    (Event.deleteIndex CONFIG.index_name ∈ (setup_index noFailures s).1 ↔
      ∃ info, s CONFIG.index_name = some info ∧ info.dimension ≠ CONFIG.dimension) ∧
    (Event.createIndex CONFIG.index_name CONFIG.dimension CONFIG.metric CONFIG.spec ∈
        (setup_index noFailures s).1 ↔
      ¬ ∃ info, s CONFIG.index_name = some info ∧ info.dimension = CONFIG.dimension) ∧
    (∀ n, Event.deleteIndex n ∈ (setup_index noFailures s).1 → n = CONFIG.index_name) ∧
    (∀ n d m sp, Event.createIndex n d m sp ∈ (setup_index noFailures s).1 →
      n = CONFIG.index_name ∧ d = CONFIG.dimension ∧ m = CONFIG.metric) ∧
    (setup_index noFailures s).2.2 = Outcome.ok ⟨CONFIG.index_name⟩ ∧
    ∃ info, (setup_index noFailures s).2.1 CONFIG.index_name = some info ∧
      info.dimension = CONFIG.dimension := by
  rcases hs : s CONFIG.index_name with _ | info
  · rw [setup_index_absent s hs]
    refine ⟨by simp [hs], by simp [hs], by simp, ?_, rfl,
      ⟨CONFIG.dimension, CONFIG.metric⟩, by simp [create_in], rfl⟩
    intro n d m sp h
    simp at h
    exact ⟨h.1, h.2.1, h.2.2.1⟩
  · by_cases hdim : info.dimension = CONFIG.dimension
    · rw [setup_index_right_dim s info hs hdim]
      exact ⟨by simp [hs, hdim], by simp [hs, hdim], by simp, by simp, rfl,
        info, hs, hdim⟩
    · rw [setup_index_wrong_dim s info hs hdim]
      refine ⟨by simp [hs, hdim], by simp [hs, hdim], by simp, ?_, rfl,
        ⟨CONFIG.dimension, CONFIG.metric⟩, by simp [create_in], rfl⟩
      intro n d m sp h
      simp at h
      exact ⟨h.1, h.2.1, h.2.2.1⟩

/-- C10: when the configured index already exists with the configured
dimension, `setup_index` issues no delete and no create call, leaves the
remote index set unchanged and returns the handle to the existing index. -/
theorem setup_index_idempotent (s : RemoteState) (info : IndexDesc)
    (h1 : s CONFIG.index_name = some info) (h2 : info.dimension = CONFIG.dimension) :
    (setup_index noFailures s).2.1 = s ∧
    (∀ n, Event.deleteIndex n ∉ (setup_index noFailures s).1) ∧
    (∀ n d m sp, Event.createIndex n d m sp ∉ (setup_index noFailures s).1) ∧
    (setup_index noFailures s).2.2 = Outcome.ok ⟨CONFIG.index_name⟩ := by
  rw [setup_index_right_dim s info h1 h2]
  exact ⟨rfl, by simp, by simp, rfl⟩

/-- C10 witness: a concrete correct remote state, with the conclusions of
`setup_index_idempotent` instantiated. -/
theorem setup_index_idempotent_witness :
    (setup_index noFailures okState).2.1 = okState ∧
    Event.deleteIndex "starter-index" ∉ (setup_index noFailures okState).1 ∧
    Event.createIndex "starter-index" 384 "cosine" CONFIG.spec ∉
      (setup_index noFailures okState).1 ∧
    (setup_index noFailures okState).2.2 = Outcome.ok ⟨"starter-index"⟩ := by
  have h := setup_index_idempotent okState ⟨384, "cosine"⟩ rfl rfl
  exact ⟨h.1, h.2.1 _, h.2.2.1 _ _ _ _, h.2.2.2⟩

/-- C2 counterexample: with a remote store whose query call raises, the CLI
run completes with a normal return (exit status 0), printing the caught
failure: a failure raised during `query_index` is not fatal, refuting the
claim that every remote-call failure exits the process with non-zero status. -/
theorem query_failure_not_fatal_cex :
    (main_run envOk noFailures encOk storeFail emptyState []).2 = Outcome.ok () ∧
    Event.print "Query failed: connection error" ∈
      (main_run envOk noFailures encOk storeFail emptyState []).1 := by
  constructor <;> decide

/-- C2 (amended): failures of index listing, creation and deletion and of the
upsert call are fatal (the process exits with status 1), but a failure raised
during `query_index` is caught: the query operation always returns normally. -/
theorem remote_failures_fatal_except_query :
    (∀ f s e, f.list_indexes = some e → (setup_index f s).2.2 = Outcome.exited 1) ∧
    (∀ f s e, f.list_indexes = none → s CONFIG.index_name = none →
      f.create_index = some e → (setup_index f s).2.2 = Outcome.exited 1) ∧
    (∀ f s info e, f.list_indexes = none → f.describe_index = none →
      s CONFIG.index_name = some info → info.dimension ≠ CONFIG.dimension →
      f.delete_index = some e → (setup_index f s).2.2 = Outcome.exited 1) ∧
    (∀ f enc e, f.upsert = some e → (upsert_documents f enc).2 = Outcome.exited 1) ∧
    (∀ enc store q k, (query_index enc store q k).2 = Outcome.ok ()) := by
  refine ⟨?_, ?_, ?_, ?_, fun enc store q k => query_index_snd enc store q k⟩
  · intro f s e h
    simp [setup_index, h]
  · intro f s e h1 h2 h3
    simp [setup_index, setup_index_finish, h1, h2, h3]
  · intro f s info e h1 h2 h3 h4 h5
    simp [setup_index, setup_index_finish, h1, h2, h3, h4, h5]
  · intro f enc e h
    unfold upsert_documents upsert_documents_on
    rcases hb : build_vectors enc documents with ⟨evs, r⟩
    rcases r with e0 | recs <;> simp [hb, h]

/-- C2 witness: each fatal failure mode at a concrete input, and a concrete
non-fatal query failure. -/
theorem remote_failures_fatal_except_query_witness :
    (setup_index failListCfg emptyState).2.2 = Outcome.exited 1 ∧
    (setup_index failCreateCfg emptyState).2.2 = Outcome.exited 1 ∧
    (setup_index failDeleteCfg wrongDimState).2.2 = Outcome.exited 1 ∧
    (upsert_documents failUpsertCfg encOk).2 = Outcome.exited 1 ∧
    (query_index encOk storeFail "ancient engineering" 2).2 = Outcome.ok () := by
  obtain ⟨h1, h2, h3, h4, h5⟩ := remote_failures_fatal_except_query
  exact ⟨h1 failListCfg emptyState "boom" rfl,
         h2 failCreateCfg emptyState "boom" rfl rfl rfl,
         h3 failDeleteCfg wrongDimState ⟨128, "cosine"⟩ "boom" rfl rfl rfl (by decide) rfl,
         h4 failUpsertCfg encOk "boom" rfl,
         h5 encOk storeFail "ancient engineering" 2⟩

/-- C3 counterexample: at a concrete encoder, the successful ingestion's
return value is not the numeric count of inserted records. -/
theorem upsert_return_not_count_cex :
    (upsert_documents noFailures encOk).2 ≠
      Outcome.ok (UpsertReturn.count documents.length) := by
  decide

/-- C3 (amended): on success the ingestion returns the assembled vector-record
list (one record per document, in order) — its length equals the number of
documents — and the count reaches the caller only through the printed
`Inserted N documents` line. -/
theorem upsert_documents_returns_record_list (f : RemoteFailures) (enc : Encoder)
    (g : String → Embedding) (henc : ∀ d ∈ documents, enc d.text = Except.ok (g d.text))
    (hf : f.upsert = none) :
    (upsert_documents f enc).2 =
      Outcome.ok (UpsertReturn.records (documents.map fun d => mkRecord d (g d.text))) ∧
    (documents.map fun d => mkRecord d (g d.text)).length = documents.length ∧
    Event.print ("Inserted " ++ toString documents.length ++ " documents") ∈
      (upsert_documents f enc).1 := by
  have h := upsert_on_ok f enc g documents henc hf
  unfold upsert_documents
  rw [h]
  exact ⟨rfl, by simp, by simp⟩

/-- C3 witness: the amended claim at a concrete encoder. -/
theorem upsert_documents_returns_record_list_witness :
    (upsert_documents noFailures encOk).2 =
      Outcome.ok (UpsertReturn.records (documents.map fun d => mkRecord d [])) ∧
    (documents.map fun d => mkRecord d []).length = documents.length ∧
    Event.print ("Inserted " ++ toString documents.length ++ " documents") ∈
      (upsert_documents noFailures encOk).1 :=
  upsert_documents_returns_record_list noFailures encOk (fun _ => [])
    (fun _ _ => rfl) rfl

/-- C4 counterexample: a match whose stored metadata has no `category` key is
not reported with an empty-string category — no category line is printed at
all — and instead the formatting failure `KeyError: 'category'` is caught and
printed, refuting the claimed default. -/
theorem query_missing_category_cex :
    Event.print "Category: " ∉ (query_index encOk storeNoCategory "q" 1).1 ∧
    Event.print "Query failed: 'category'" ∈ (query_index encOk storeNoCategory "q" 1).1 := by
  constructor <;> decide

/-- C4 (amended): the category is read from the match's stored metadata with a
direct lookup and no default: when a match's metadata lacks the `category`
key (all matches before it being complete), formatting stops and the query
prints `Query failed: 'category'`, still returning normally; a match is
reported with its id, category and text lines when its metadata carries both
keys and the whole match list is complete. -/
theorem query_category_no_default (enc : Encoder) (store : Store) (q : String)
    (k : Nat) (v : Embedding) :
    (∀ good m rest, enc q = Except.ok v →
      store v k = Except.ok (good ++ m :: rest) →
      (∀ g ∈ good, wfMatch g) → m.metadata.lookup "category" = none →
      Event.print "Query failed: 'category'" ∈ (query_index enc store q k).1 ∧
      (query_index enc store q k).2 = Outcome.ok ()) ∧
    (∀ ms, enc q = Except.ok v → store v k = Except.ok ms →
      (∀ g ∈ ms, wfMatch g) →
      ∀ m ∈ ms, ∀ cat txt, m.metadata.lookup "category" = some cat →
        m.metadata.lookup "text" = some txt →
        Event.print ("ID: " ++ m.id) ∈ (query_index enc store q k).1 ∧
        Event.print ("Category: " ++ cat) ∈ (query_index enc store q k).1 ∧
        Event.print ("Content: " ++ txt) ∈ (query_index enc store q k).1) := by
  constructor
  · intro good m rest he hs hwf hcat
    have herr := format_matches_missing_category m hcat rest good hwf 1
    have hne : (good ++ m :: rest).isEmpty = false := by simp
    obtain ⟨evs, err, hp⟩ : ∃ a b, format_matches 1 (good ++ m :: rest) = (a, b) :=
      ⟨_, _, rfl⟩
    rw [hp] at herr
    simp only at herr
    subst herr
    have hq : query_index enc store q k =
        (Event.encode q :: Event.storeQuery v k true ::
          Event.print ("\nTop " ++ toString k ++ " result(s) for '" ++ q ++ "':") :: evs ++
          [Event.print ("Query failed: " ++ "'category'")],
         Outcome.ok ()) := by
      simp [query_index, he, hs, hne, hp]
    rw [hq]
    have hstr : "Query failed: " ++ "'category'" = "Query failed: 'category'" := rfl
    rw [hstr]
    exact ⟨by simp, rfl⟩
  · intro ms he hs hwf m hmem cat txt hcat htxt
    have hne : ms.isEmpty = false := by
      cases ms
      · cases hmem
      · rfl
    have hrep := format_matches_reports_all ms hwf 1
    obtain ⟨evs, err, hp⟩ : ∃ a b, format_matches 1 ms = (a, b) := ⟨_, _, rfl⟩
    rw [hp] at hrep
    simp only at hrep
    obtain ⟨herr, hmemb⟩ := hrep
    subst herr
    have hq : query_index enc store q k =
        (Event.encode q :: Event.storeQuery v k true ::
          Event.print ("\nTop " ++ toString k ++ " result(s) for '" ++ q ++ "':") :: evs,
         Outcome.ok ()) := by
      simp [query_index, he, hs, hne, hp]
    rw [hq]
    have h3 := hmemb m hmem cat txt hcat htxt
    exact ⟨by simp [h3.1], by simp [h3.2.1], by simp [h3.2.2]⟩

/-- C4 witness: the missing-category behaviour and the complete-metadata
behaviour, each at a concrete store. -/
theorem query_category_no_default_witness :
    (Event.print "Query failed: 'category'" ∈ (query_index encOk storeNoCategory "q" 1).1 ∧
      (query_index encOk storeNoCategory "q" 1).2 = Outcome.ok ()) ∧
    Event.print "Category: science" ∈ (query_index encOk storeGood "q" 1).1 := by
  have h1 := (query_category_no_default encOk storeNoCategory "q" 1 []).1
    [] ⟨"doc9", 5, [("text", "hello")]⟩ [] rfl rfl (by simp) rfl
  have h2 := (query_category_no_default encOk storeGood "q" 1 []).2
    [⟨"doc1", 9, [("text", "t1"), ("category", "science")]⟩] rfl rfl
    (by intro g hg; simp at hg; subst hg; exact ⟨rfl, rfl⟩)
    ⟨"doc1", 9, [("text", "t1"), ("category", "science")]⟩ (by simp) "science" "t1" rfl rfl
  exact ⟨h1, h2.2.1⟩

/-- C5: with `PINECONE_API_KEY` absent from the environment, the run exits
with status 1 having done nothing but read the environment and print the
failure: no network client is constructed and no network call is attempted. -/
theorem missing_api_key_exits_before_network (env : Env) (f : RemoteFailures)
    (enc : Encoder) (store : Store) (s0 : RemoteState) (argv : List String)
    (h : env.pinecone_api_key = none) :
    (main_run env f enc store s0 argv).2 = Outcome.exited 1 ∧
    (main_run env f enc store s0 argv).1 =
      [Event.getenv "PINECONE_API_KEY",
       Event.print "Initialization failed: PINECONE_API_KEY not found in .env file"] ∧
    ∀ e ∈ (main_run env f enc store s0 argv).1, isNetworkEvent e = false := by
  have hmain : main_run env f enc store s0 argv =
      ([Event.getenv "PINECONE_API_KEY",
        Event.print "Initialization failed: PINECONE_API_KEY not found in .env file"],
       Outcome.exited 1) := by
    have hinit : initialize_components env =
        ([Event.getenv "PINECONE_API_KEY",
          Event.print "Initialization failed: PINECONE_API_KEY not found in .env file"],
         Outcome.exited 1) := by
      simp [initialize_components, pyFalsy, h]
    simp [main_run, hinit]
  rw [hmain]
  exact ⟨rfl, rfl, by decide⟩

/-- C5 witness: the missing-key behaviour at a concrete run. -/
theorem missing_api_key_exits_before_network_witness :
    (main_run envNone noFailures encOk storeEmpty emptyState []).2 = Outcome.exited 1 ∧
    (main_run envNone noFailures encOk storeEmpty emptyState []).1 =
      [Event.getenv "PINECONE_API_KEY",
       Event.print "Initialization failed: PINECONE_API_KEY not found in .env file"] ∧
    ∀ e ∈ (main_run envNone noFailures encOk storeEmpty emptyState []).1,
      isNetworkEvent e = false :=
  missing_api_key_exits_before_network envNone noFailures encOk storeEmpty emptyState [] rfl

/-- C6: with every embedding call succeeding, ingestion encodes each document
once, in the order supplied, and submits all assembled records in exactly one
upsert call; each record's metadata is exactly the document's text and
category. -/
theorem ingestion_trace_per_document (f : RemoteFailures) (enc : Encoder)
    (docs : List Document) (g : String → Embedding)
    (henc : ∀ d ∈ docs, enc d.text = Except.ok (g d.text)) (hf : f.upsert = none) :
    (upsert_documents_on f enc docs).1 =
      (docs.map fun d => Event.encode d.text) ++
        [Event.upsert (docs.map fun d => mkRecord d (g d.text)),
         Event.print ("Inserted " ++ toString docs.length ++ " documents")] ∧
    (upsert_documents_on f enc docs).1.filter isEncodeEvent =
      (docs.map fun d => Event.encode d.text) ∧
    (upsert_documents_on f enc docs).1.filter isUpsertEvent =
      [Event.upsert (docs.map fun d => mkRecord d (g d.text))] ∧
    ∀ d ∈ docs, (mkRecord d (g d.text)).metadata =
      [("text", d.text), ("category", d.category)] := by
  have h1 := upsert_on_ok f enc g docs henc hf
  have htr : (upsert_documents_on f enc docs).1 =
      (docs.map fun d => Event.encode d.text) ++
        [Event.upsert (docs.map fun d => mkRecord d (g d.text)),
         Event.print ("Inserted " ++ toString docs.length ++ " documents")] := by
    rw [h1]
  refine ⟨htr, ?_, ?_, fun d _ => rfl⟩
  · rw [htr, List.filter_append]
    have hl : (docs.map fun d => Event.encode d.text).filter isEncodeEvent =
        docs.map fun d => Event.encode d.text := by
      apply List.filter_eq_self.mpr
      intro a ha
      obtain ⟨d, _, rfl⟩ := List.mem_map.mp ha
      rfl
    rw [hl]
    simp [isEncodeEvent]
  · rw [htr, List.filter_append]
    have hl : (docs.map fun d => Event.encode d.text).filter isUpsertEvent = [] := by
      apply List.filter_eq_nil_iff.mpr
      intro a ha
      obtain ⟨d, _, rfl⟩ := List.mem_map.mp ha
      simp [isUpsertEvent]
    rw [hl]
    simp [isUpsertEvent]

/-- C6 witness: the trace of ingesting the four sample documents with a
concrete encoder. -/
theorem ingestion_trace_per_document_witness :
    (upsert_documents_on noFailures encOk documents).1 =
      (documents.map fun d => Event.encode d.text) ++
        [Event.upsert (documents.map fun d => mkRecord d []),
         Event.print ("Inserted " ++ toString documents.length ++ " documents")] ∧
    (upsert_documents_on noFailures encOk documents).1.filter isEncodeEvent =
      (documents.map fun d => Event.encode d.text) ∧
    (upsert_documents_on noFailures encOk documents).1.filter isUpsertEvent =
      [Event.upsert (documents.map fun d => mkRecord d [])] ∧
    ∀ d ∈ documents, (mkRecord d []).metadata =
      [("text", d.text), ("category", d.category)] :=
  ingestion_trace_per_document noFailures encOk documents (fun _ => [])
    (fun _ _ => rfl) rfl

/-- C7: a query for which the remote store returns an empty match list prints
the header and `No matches found`, and returns normally: the empty result is
not an error. -/
theorem empty_match_list_ok (enc : Encoder) (store : Store) (q : String) (k : Nat)
    (v : Embedding) (henc : enc q = Except.ok v) (hstore : store v k = Except.ok []) :
    (query_index enc store q k).1 =
      [Event.encode q, Event.storeQuery v k true,
       Event.print ("\nTop " ++ toString k ++ " result(s) for '" ++ q ++ "':"),
       Event.print "No matches found"] ∧
    Event.print "No matches found" ∈ (query_index enc store q k).1 ∧
    (query_index enc store q k).2 = Outcome.ok () := by
  have hq : query_index enc store q k =
      ([Event.encode q, Event.storeQuery v k true,
        Event.print ("\nTop " ++ toString k ++ " result(s) for '" ++ q ++ "':"),
        Event.print "No matches found"], Outcome.ok ()) := by
    simp [query_index, henc, hstore]
  rw [hq]
  exact ⟨rfl, by simp, rfl⟩

/-- C7 witness: the empty-result behaviour at a concrete query. -/
theorem empty_match_list_ok_witness :
    (query_index encOk storeEmpty "scientific theories" 1).1 =
      [Event.encode "scientific theories", Event.storeQuery [] 1 true,
       Event.print ("\nTop " ++ toString 1 ++ " result(s) for '" ++
         "scientific theories" ++ "':"),
       Event.print "No matches found"] ∧
    Event.print "No matches found" ∈ (query_index encOk storeEmpty "scientific theories" 1).1 ∧
    (query_index encOk storeEmpty "scientific theories" 1).2 = Outcome.ok () :=
  empty_match_list_ok encOk storeEmpty "scientific theories" 1 [] rfl rfl

/-- C8: on a fully successful run the CLI entry point consults no command-line
argument and runs exactly the fixed sequence — initialization, index setup,
ingestion of the 4 sample documents, then the two canned queries
`scientific theories` with top_k 1 (the default) and `ancient engineering`
with top_k 2 — ending with a normal exit. -/
theorem main_runs_fixed_sequence (env : Env) (enc : Encoder) (store : Store)
    (s0 : RemoteState) (argv argv' : List String) (g : String → Embedding)
    (henv : pyFalsy env.pinecone_api_key = false)
    (henc : ∀ d ∈ documents, enc d.text = Except.ok (g d.text)) :
    main_run env noFailures enc store s0 argv = main_run env noFailures enc store s0 argv' ∧
    (main_run env noFailures enc store s0 argv).2 = Outcome.ok () ∧
    (main_run env noFailures enc store s0 argv).1 =
      (initialize_components env).1 ++ (setup_index noFailures s0).1 ++
      (upsert_documents noFailures enc).1 ++
      (query_index enc store "scientific theories" 1).1 ++
      (query_index enc store "ancient engineering" 2).1 ∧
    documents.length = 4 := by
  have hinit : initialize_components env =
      ([Event.getenv "PINECONE_API_KEY", Event.constructClient,
        Event.loadModel CONFIG.embedding_model], Outcome.ok ()) := by
    simp [initialize_components, henv]
  obtain ⟨evs1, s1, out1, hsetup⟩ : ∃ a b c, setup_index noFailures s0 = (a, b, c) :=
    ⟨_, _, _, rfl⟩
  have hout1 : out1 = Outcome.ok ⟨CONFIG.index_name⟩ := by
    have h := setup_index_snd s0
    rw [hsetup] at h
    exact h
  subst hout1
  have hups : upsert_documents noFailures enc =
      ((documents.map fun d => Event.encode d.text) ++
        [Event.upsert (documents.map fun d => mkRecord d (g d.text)),
         Event.print ("Inserted " ++ toString documents.length ++ " documents")],
       Outcome.ok (UpsertReturn.records (documents.map fun d => mkRecord d (g d.text)))) := by
    unfold upsert_documents
    exact upsert_on_ok noFailures enc g documents henc rfl
  have hq3 : query_index enc store "scientific theories" 1 =
      ((query_index enc store "scientific theories" 1).1, Outcome.ok ()) := by
    rw [← query_index_snd enc store "scientific theories" 1]
  have hq4 : query_index enc store "ancient engineering" 2 =
      ((query_index enc store "ancient engineering" 2).1, Outcome.ok ()) := by
    rw [← query_index_snd enc store "ancient engineering" 2]
  have hmain : main_run env noFailures enc store s0 argv =
      ([Event.getenv "PINECONE_API_KEY", Event.constructClient,
        Event.loadModel CONFIG.embedding_model] ++ evs1 ++
        ((documents.map fun d => Event.encode d.text) ++
          [Event.upsert (documents.map fun d => mkRecord d (g d.text)),
           Event.print ("Inserted " ++ toString documents.length ++ " documents")]) ++
        (query_index enc store "scientific theories" 1).1 ++
        (query_index enc store "ancient engineering" 2).1,
       Outcome.ok ()) := by
    conv_lhs => rw [main_run, hinit, hsetup, hups, hq3, hq4]
  refine ⟨rfl, ?_, ?_, rfl⟩
  · rw [hmain]
  · rw [hmain, hinit, hsetup, hups]

/-- C8 witness: the fixed sequence at a concrete fully successful run, with
two different argument vectors. -/
theorem main_runs_fixed_sequence_witness :
    main_run envOk noFailures encOk storeEmpty emptyState [] =
      main_run envOk noFailures encOk storeEmpty emptyState ["--flag"] ∧
    (main_run envOk noFailures encOk storeEmpty emptyState []).2 = Outcome.ok () ∧
    (main_run envOk noFailures encOk storeEmpty emptyState []).1 =
      (initialize_components envOk).1 ++ (setup_index noFailures emptyState).1 ++
      (upsert_documents noFailures encOk).1 ++
      (query_index encOk storeEmpty "scientific theories" 1).1 ++
      (query_index encOk storeEmpty "ancient engineering" 2).1 ∧
    documents.length = 4 :=
  main_runs_fixed_sequence envOk encOk storeEmpty emptyState [] ["--flag"]
    (fun _ => []) rfl (fun _ _ => rfl)

/-- C9: if the embedding of any document raises, the whole record list is
never submitted: no upsert call is issued and the process exits with status 1
(the record list is built in full before the single upsert call). -/
theorem ingestion_atomic_on_embed_failure (f : RemoteFailures) (enc : Encoder)
    (docs : List Document) (h : ∃ d ∈ docs, ∃ e, enc d.text = Except.error e) :
    (∀ vs, Event.upsert vs ∉ (upsert_documents_on f enc docs).1) ∧
    (upsert_documents_on f enc docs).2 = Outcome.exited 1 := by
  obtain ⟨e', he'⟩ := build_vectors_error_of_mem enc docs h
  obtain ⟨ts, hts⟩ := build_vectors_events_shape enc docs
  obtain ⟨evs, r, hb⟩ : ∃ a b, build_vectors enc docs = (a, b) := ⟨_, _, rfl⟩
  rw [hb] at he' hts
  simp only at he' hts
  subst he'
  have heq : upsert_documents_on f enc docs =
      (evs ++ [Event.print ("Document upload failed: " ++ e')], Outcome.exited 1) := by
    simp [upsert_documents_on, hb]
  rw [heq]
  refine ⟨?_, rfl⟩
  intro vs hm
  rw [hts] at hm
  simp at hm

/-- C9 witness: an encoder failing on the third sample document issues no
upsert and exits with status 1. -/
theorem ingestion_atomic_on_embed_failure_witness :
    Event.upsert [] ∉ (upsert_documents_on noFailures encFail documents).1 ∧
    (upsert_documents_on noFailures encFail documents).2 = Outcome.exited 1 := by
  have h := ingestion_atomic_on_embed_failure noFailures encFail documents
    ⟨⟨"doc3", "Quantum mechanics describes subatomic particles", "physics"⟩,
      by decide, "model crash", rfl⟩
  exact ⟨h.1 [], h.2⟩

end VectorDb
